import Mathlib

/-!
Shallow embedding of `src/yolox-burn/src/model/darknet.rs` (CSPDarknet-53
backbone of YOLOX, written over the burn tensor framework).

Modelling choices:
* `f64` values are modelled by `ℚ`: every floating-point literal occurring in
  the source (`0.33`, `0.67`, `1.0`, `1.33`, `0.25`, `0.375`, `0.5`, `0.75`,
  `1.25`, `3.0`) is mapped to its decimal rational; the mapping preserves
  equality, and the single arithmetic computation on them
  (`(depth * 3.0).round()`) produces the same integer on the rationals as on
  the floats, since no intermediate value lies near a rounding boundary.
* Tensors are an abstract type parameter `T`; the sub-modules defined in the
  sibling files `blocks.rs` and `bottleneck.rs` (absent from the sources) are
  modelled as the tensor transformation their `forward` computes.
* A Rust function that can panic is embedded as an `Option`-returning
  function, `none` standing for the panic.
-/

/-- Rust `f64::round`: rounds to the nearest integer, halfway cases away
from zero. -/
def f64Round (q : ℚ) : ℤ :=
  if 0 ≤ q then ⌊q + 1/2⌋ else ⌈q - 1/2⌉

/-- Rust `as usize` on a nonnegative, integral `f64` value given as `ℤ`:
saturates at zero from below. -/
def intAsUsize (z : ℤ) : ℕ := z.toNat

/-- Modelled from the spec: `expand` lives in `blocks.rs`, which is not among
the sources; per the spec it applies the width scaling factor to a channel
count, `(num_channels as f64 * factor) as usize`, i.e. the floor for the
nonnegative factors in use. -/
def expand (numChannels : ℕ) (factor : ℚ) : ℕ :=
  (⌊(numChannels : ℚ) * factor⌋).toNat

/-- Modelled from the spec: the `Focus` module of `blocks.rs` is not among the
sources; it is modelled by the tensor transformation its `forward` computes. -/
structure Focus (T : Type) where
  forward : T → T

/-- Modelled from the spec: the `BaseConv` module of `blocks.rs` is not among
the sources; it is modelled by the tensor transformation its `forward`
computes. -/
structure BaseConv (T : Type) where
  forward : T → T

/-- Modelled from the spec: the `CspBottleneck` module of `bottleneck.rs` is
not among the sources; it is modelled by the tensor transformation its
`forward` computes. -/
structure CspBottleneck (T : Type) where
  forward : T → T

/-- Modelled from the spec: the `SppBottleneck` module of `bottleneck.rs` is
not among the sources; it is modelled by the tensor transformation its
`forward` computes. -/
structure SppBottleneck (T : Type) where
  forward : T → T

/-- `struct CspBlock<B>` of darknet.rs: a `BaseConv -> CspBottleneck` block
with an optional `SppBottleneck` in between. -/
structure CspBlock (T : Type) where
  conv : BaseConv T
  c3 : CspBottleneck T
  spp : Option (SppBottleneck T)

/-- `CspBlock::forward` of darknet.rs: the stride-2 convolution, then the
spatial-pyramid-pooling bottleneck when present, then the CSP bottleneck. -/
def CspBlock.forward {T : Type} (m : CspBlock T) (x : T) : T :=
  let x := m.conv.forward x
  let x := match m.spp with
    | some spp => spp.forward x
    | none => x
  m.c3.forward x

/-- `struct CspDarknet<B>` of darknet.rs. -/
structure CspDarknet (T : Type) where
  stem : Focus T
  dark2 : CspBlock T
  dark3 : CspBlock T
  dark4 : CspBlock T
  dark5 : CspBlock T

/-- `struct DarknetFeatures<B>` of darknet.rs: the three backbone feature
maps, in order. -/
structure DarknetFeatures (T : Type) where
  f1 : T
  f2 : T
  f3 : T

/-- `CspDarknet::forward` of darknet.rs. -/
def CspDarknet.forward {T : Type} (m : CspDarknet T) (x : T) : DarknetFeatures T :=
  let x := m.stem.forward x
  let x := m.dark2.forward x
  let f1 := m.dark3.forward x
  let f2 := m.dark4.forward f1
  let f3 := m.dark5.forward f2
  ⟨f1, f2, f3⟩

/-- Modelled from the spec: `FocusConfig` of `blocks.rs` is not among the
sources; it is modelled as the record of its constructor arguments
`FocusConfig::new(in_channels, out_channels, kernel_size, stride)`. -/
structure FocusConfig where
  inChannels : ℕ
  outChannels : ℕ
  kernelSize : ℕ
  stride : ℕ
deriving DecidableEq

/-- Modelled from the spec: `BaseConvConfig` of `blocks.rs` is not among the
sources; it is modelled as the record of its constructor arguments
`BaseConvConfig::new(in_channels, out_channels, kernel_size, stride, groups)`. -/
structure BaseConvConfig where
  inChannels : ℕ
  outChannels : ℕ
  kernelSize : ℕ
  stride : ℕ
  groups : ℕ
deriving DecidableEq

/-- Modelled from the spec: `CspBottleneckConfig` of `bottleneck.rs` is not
among the sources; it is modelled as the record of its constructor arguments
`CspBottleneckConfig::new(in_channels, out_channels, depth, expansion,
shortcut)`. -/
structure CspBottleneckConfig where
  inChannels : ℕ
  outChannels : ℕ
  depth : ℕ
  expansion : ℚ
  shortcut : Bool
deriving DecidableEq

/-- Modelled from the spec: `SppBottleneckConfig` of `bottleneck.rs` is not
among the sources; it is modelled as the record of its constructor arguments
`SppBottleneckConfig::new(in_channels, out_channels)`. -/
structure SppBottleneckConfig where
  inChannels : ℕ
  outChannels : ℕ
deriving DecidableEq

/-- `struct CspBlockConfig` of darknet.rs. -/
structure CspBlockConfig where
  conv : BaseConvConfig
  c3 : CspBottleneckConfig
  spp : Option SppBottleneckConfig
deriving DecidableEq

/-- `CspBlockConfig::new` of darknet.rs. -/
def CspBlockConfig.new (inChannels outChannels depth : ℕ) (spp : Bool) :
    CspBlockConfig :=
  let conv : BaseConvConfig := ⟨inChannels, outChannels, 3, 2, 1⟩
  let c3 : CspBottleneckConfig := ⟨outChannels, outChannels, depth, 0.5, !spp⟩
  let sppCfg : Option SppBottleneckConfig :=
    if spp then some ⟨outChannels, outChannels⟩ else none
  ⟨conv, c3, sppCfg⟩

/-- `struct CspDarknetConfig` of darknet.rs. -/
structure CspDarknetConfig where
  stem : FocusConfig
  dark2 : CspBlockConfig
  dark3 : CspBlockConfig
  dark4 : CspBlockConfig
  dark5 : CspBlockConfig
deriving DecidableEq

/-- The depth values accepted by the first assert of `CspDarknetConfig::new`. -/
def validDepths : List ℚ := [0.33, 0.67, 1.0, 1.33]

/-- The width values accepted by the second assert of `CspDarknetConfig::new`. -/
def validWidths : List ℚ := [0.25, 0.375, 0.5, 0.75, 1.0, 1.25]

/-- `base_depth` as computed by `CspDarknetConfig::new`:
`max((depth * 3_f64).round() as usize, 1)`. -/
def baseDepth (depth : ℚ) : ℕ :=
  max (intAsUsize (f64Round (depth * 3))) 1

/-- The body of `CspDarknetConfig::new` past its two asserts (lines 61-78 of
darknet.rs). -/
def CspDarknetConfig.build (depth width : ℚ) : CspDarknetConfig :=
  let baseChannels := expand 64 width
  let bd := baseDepth depth
  let stem : FocusConfig := ⟨3, baseChannels, 3, 1⟩
  let dark2 := CspBlockConfig.new baseChannels (baseChannels * 2) bd false
  let dark3 := CspBlockConfig.new (baseChannels * 2) (baseChannels * 4) (bd * 3) false
  let dark4 := CspBlockConfig.new (baseChannels * 4) (baseChannels * 8) (bd * 3) false
  let dark5 := CspBlockConfig.new (baseChannels * 8) (baseChannels * 16) bd true
  ⟨stem, dark2, dark3, dark4, dark5⟩

/-- `CspDarknetConfig::new` of darknet.rs; `none` models a panic of one of the
two asserts. -/
def CspDarknetConfig.new (depth width : ℚ) : Option CspDarknetConfig :=
  if depth ∈ validDepths then
    if width ∈ validWidths then
      some (CspDarknetConfig.build depth width)
    else none
  else none

/-- Modelled from the spec: `BaseConvRecord` of `blocks.rs` is not among the
sources; a record holds the trained weights of a module, modelled as the
tensor transformation they induce. -/
structure BaseConvRecord (T : Type) where
  weights : T → T

/-- Modelled from the spec: `CspBottleneckRecord` of `bottleneck.rs` is not
among the sources; modelled as the tensor transformation the trained weights
induce. -/
structure CspBottleneckRecord (T : Type) where
  weights : T → T

/-- Modelled from the spec: `SppBottleneckRecord` of `bottleneck.rs` is not
among the sources; modelled as the tensor transformation the trained weights
induce. -/
structure SppBottleneckRecord (T : Type) where
  weights : T → T

/-- Modelled from the spec: `BaseConvConfig::init_with` of `blocks.rs` is not
among the sources; it builds the module that computes the transformation held
by the record, and does not panic. -/
def BaseConvConfig.init_with {T : Type} (_c : BaseConvConfig)
    (r : BaseConvRecord T) : BaseConv T :=
  ⟨r.weights⟩

/-- Modelled from the spec: `CspBottleneckConfig::init_with` of
`bottleneck.rs` is not among the sources; it builds the module that computes
the transformation held by the record, and does not panic. -/
def CspBottleneckConfig.init_with {T : Type} (_c : CspBottleneckConfig)
    (r : CspBottleneckRecord T) : CspBottleneck T :=
  ⟨r.weights⟩

/-- Modelled from the spec: `SppBottleneckConfig::init_with` of
`bottleneck.rs` is not among the sources; it builds the module that computes
the transformation held by the record, and does not panic. -/
def SppBottleneckConfig.init_with {T : Type} (_c : SppBottleneckConfig)
    (r : SppBottleneckRecord T) : SppBottleneck T :=
  ⟨r.weights⟩

/-- `struct CspBlockRecord<B>` as derived by burn for `CspBlock`: one record
per sub-module, the optional sub-module giving an optional record. -/
structure CspBlockRecord (T : Type) where
  conv : BaseConvRecord T
  c3 : CspBottleneckRecord T
  spp : Option (SppBottleneckRecord T)

/-- `CspBlockConfig::init_with` of darknet.rs; `none` models the panic of the
`expect` on the record of the spatial-pyramid-pooling bottleneck. -/
def CspBlockConfig.init_with {T : Type} (c : CspBlockConfig)
    (r : CspBlockRecord T) : Option (CspBlock T) :=
  match c.spp with
  | none => some ⟨c.conv.init_with r.conv, c.c3.init_with r.c3, none⟩
  | some d =>
    match r.spp with
    | none => none
    | some rs =>
      some ⟨c.conv.init_with r.conv, c.c3.init_with r.c3, some (d.init_with rs)⟩

/-- A concrete `Focus` module over `ℕ`-tensors, for instantiating theorems. -/
def idFocus : Focus ℕ := ⟨id⟩

/-- A concrete `CspBlock` module over `ℕ`-tensors with no spatial-pyramid
pooling, for instantiating theorems. -/
def idCspBlock : CspBlock ℕ := ⟨⟨id⟩, ⟨id⟩, none⟩

/-- A concrete `CspDarknet` module over `ℕ`-tensors, for instantiating
theorems. -/
def idCspDarknet : CspDarknet ℕ :=
  ⟨idFocus, idCspBlock, idCspBlock, idCspBlock, idCspBlock⟩

/-- A concrete `CspBlockRecord` over `ℕ`-tensors without a record for the
spatial-pyramid-pooling bottleneck. -/
def idCspBlockRecord : CspBlockRecord ℕ := ⟨⟨id⟩, ⟨id⟩, none⟩

/-- The pair `(0.33, 0.5)` passes both asserts of `CspDarknetConfig::new`. -/
theorem new_depth033_width05 :
    CspDarknetConfig.new 0.33 0.5 = some (CspDarknetConfig.build 0.33 0.5) := by
  unfold CspDarknetConfig.new
  norm_num [validDepths, validWidths]

/-- Claim C1: `CspDarknet::forward` returns exactly the three feature maps
`f1 = dark3(dark2(stem(x)))`, `f2 = dark4(f1)`, `f3 = dark5(f2)`; no other
computation intervenes. -/
theorem cspDarknet_forward_feature_maps {T : Type} (m : CspDarknet T) (x : T) :
    (m.forward x).f1 = m.dark3.forward (m.dark2.forward (m.stem.forward x)) ∧
    (m.forward x).f2 = m.dark4.forward ((m.forward x).f1) ∧
    (m.forward x).f3 = m.dark5.forward ((m.forward x).f2) :=
  ⟨rfl, rfl, rfl⟩

/-- Claim C2: `CspDarknetConfig::new(depth, width)` panics exactly when
`depth` is outside `{0.33, 0.67, 1.0, 1.33}` or `width` is outside
`{0.25, 0.375, 0.5, 0.75, 1.0, 1.25}`; on every pair from those sets it
returns a configuration. -/
theorem cspDarknetConfig_new_panics_iff (depth width : ℚ) :
    CspDarknetConfig.new depth width = none ↔
      depth ∉ validDepths ∨ width ∉ validWidths := by
  unfold CspDarknetConfig.new
  split_ifs with hd hw <;> simp [*]

/-- Claim C3: every configuration returned by `CspDarknetConfig::new` has the
channel progression `3 → base_channels → 2·base_channels → 4·base_channels →
8·base_channels → 16·base_channels` with `base_channels = expand 64 width`. -/
theorem cspDarknetConfig_channel_progression (depth width : ℚ)
    (c : CspDarknetConfig) (h : CspDarknetConfig.new depth width = some c) :
    c.stem.inChannels = 3 ∧
    c.stem.outChannels = expand 64 width ∧
    c.dark2.conv.inChannels = expand 64 width ∧
    c.dark2.conv.outChannels = 2 * expand 64 width ∧
    c.dark3.conv.inChannels = 2 * expand 64 width ∧
    c.dark3.conv.outChannels = 4 * expand 64 width ∧
    c.dark4.conv.inChannels = 4 * expand 64 width ∧
    c.dark4.conv.outChannels = 8 * expand 64 width ∧
    c.dark5.conv.inChannels = 8 * expand 64 width ∧
    c.dark5.conv.outChannels = 16 * expand 64 width := by
  unfold CspDarknetConfig.new at h
  split_ifs at h with hd hw
  · injection h with h
    subst h
    exact ⟨rfl, rfl, rfl, Nat.mul_comm _ 2, Nat.mul_comm _ 2, Nat.mul_comm _ 4,
      Nat.mul_comm _ 4, Nat.mul_comm _ 8, Nat.mul_comm _ 8, Nat.mul_comm _ 16⟩

/-- Witness for C3 at `depth = 0.33`, `width = 0.5`. -/
theorem cspDarknetConfig_channel_progression_witness :
    (CspDarknetConfig.build 0.33 0.5).stem.inChannels = 3 ∧
    (CspDarknetConfig.build 0.33 0.5).stem.outChannels = expand 64 0.5 ∧
    (CspDarknetConfig.build 0.33 0.5).dark2.conv.inChannels = expand 64 0.5 ∧
    (CspDarknetConfig.build 0.33 0.5).dark2.conv.outChannels = 2 * expand 64 0.5 ∧
    (CspDarknetConfig.build 0.33 0.5).dark3.conv.inChannels = 2 * expand 64 0.5 ∧
    (CspDarknetConfig.build 0.33 0.5).dark3.conv.outChannels = 4 * expand 64 0.5 ∧
    (CspDarknetConfig.build 0.33 0.5).dark4.conv.inChannels = 4 * expand 64 0.5 ∧
    (CspDarknetConfig.build 0.33 0.5).dark4.conv.outChannels = 8 * expand 64 0.5 ∧
    (CspDarknetConfig.build 0.33 0.5).dark5.conv.inChannels = 8 * expand 64 0.5 ∧
    (CspDarknetConfig.build 0.33 0.5).dark5.conv.outChannels = 16 * expand 64 0.5 :=
  cspDarknetConfig_channel_progression 0.33 0.5 _ new_depth033_width05

/-- Claim C4: every configuration returned by `CspDarknetConfig::new` has
`base_depth = max(round(depth·3), 1) ≥ 1`, with bottleneck depth
`base_depth` for dark2 and dark5 and `3·base_depth` for dark3 and dark4. -/
theorem cspDarknetConfig_depth_assignment (depth width : ℚ)
    (c : CspDarknetConfig) (h : CspDarknetConfig.new depth width = some c) :
    1 ≤ baseDepth depth ∧
    c.dark2.c3.depth = baseDepth depth ∧
    c.dark5.c3.depth = baseDepth depth ∧
    c.dark3.c3.depth = 3 * baseDepth depth ∧
    c.dark4.c3.depth = 3 * baseDepth depth := by
  unfold CspDarknetConfig.new at h
  split_ifs at h with hd hw
  · injection h with h
    subst h
    exact ⟨Nat.le_max_right _ 1, rfl, rfl, Nat.mul_comm _ 3, Nat.mul_comm _ 3⟩

/-- Witness for C4 at `depth = 0.33`, `width = 0.5`. -/
theorem cspDarknetConfig_depth_assignment_witness :
    1 ≤ baseDepth 0.33 ∧
    (CspDarknetConfig.build 0.33 0.5).dark2.c3.depth = baseDepth 0.33 ∧
    (CspDarknetConfig.build 0.33 0.5).dark5.c3.depth = baseDepth 0.33 ∧
    (CspDarknetConfig.build 0.33 0.5).dark3.c3.depth = 3 * baseDepth 0.33 ∧
    (CspDarknetConfig.build 0.33 0.5).dark4.c3.depth = 3 * baseDepth 0.33 :=
  cspDarknetConfig_depth_assignment 0.33 0.5 _ new_depth033_width05

/-- Claim C5: `CspBlockConfig::new` produces a spatial-pyramid-pooling
configuration exactly when its `spp` flag is true, and in every configuration
returned by `CspDarknetConfig::new` only dark5 carries one. -/
theorem cspDarknet_single_spp :
    (∀ (i o d : ℕ) (s : Bool), (CspBlockConfig.new i o d s).spp.isSome = s) ∧
    (∀ (depth width : ℚ) (c : CspDarknetConfig),
      CspDarknetConfig.new depth width = some c →
        c.dark5.spp.isSome = true ∧ c.dark2.spp = none ∧
        c.dark3.spp = none ∧ c.dark4.spp = none) := by
  constructor
  · intro i o d s
    cases s <;> rfl
  · intro depth width c h
    unfold CspDarknetConfig.new at h
    split_ifs at h with hd hw
    · injection h with h
      subst h
      exact ⟨rfl, rfl, rfl, rfl⟩

/-- Witness for C5: the spp flag governs the option, and at
`depth = 0.33`, `width = 0.5` only dark5 carries the stage. -/
theorem cspDarknet_single_spp_witness :
    (CspBlockConfig.new 1 2 1 true).spp.isSome = true ∧
    (CspDarknetConfig.build 0.33 0.5).dark5.spp.isSome = true ∧
    (CspDarknetConfig.build 0.33 0.5).dark2.spp = none :=
  ⟨cspDarknet_single_spp.1 1 2 1 true,
   (cspDarknet_single_spp.2 0.33 0.5 _ new_depth033_width05).1,
   (cspDarknet_single_spp.2 0.33 0.5 _ new_depth033_width05).2.1⟩

/-- Claim C6: `CspDarknet::forward` is deterministic: with the module fixed,
equal inputs give equal feature-map triples; the embedding of the forward
pass is a pure function of the module and the input. -/
theorem cspDarknet_forward_deterministic {T : Type} (m : CspDarknet T)
    (x y : T) (h : x = y) : m.forward x = m.forward y := by
  rw [h]

/-- Witness for C6 on a concrete module and input. -/
theorem cspDarknet_forward_deterministic_witness :
    (0 : ℕ) = 0 ∧ idCspDarknet.forward 0 = idCspDarknet.forward 0 :=
  ⟨rfl, cspDarknet_forward_deterministic idCspDarknet 0 0 rfl⟩

/-- Claim C7: `CspBlock::forward` applies the convolution first, then the
spatial-pyramid-pooling bottleneck exactly when present, then the CSP
bottleneck; with `spp = None` the result is `c3(conv(x))`. -/
theorem cspBlock_forward_order {T : Type} (m : CspBlock T) (x : T) :
    (m.forward x = m.c3.forward (match m.spp with
      | some s => s.forward (m.conv.forward x)
      | none => m.conv.forward x)) ∧
    (m.spp = none → m.forward x = m.c3.forward (m.conv.forward x)) := by
  constructor
  · rfl
  · intro h
    simp [CspBlock.forward, h]

/-- Witness for C7 on a concrete block without spatial-pyramid pooling. -/
theorem cspBlock_forward_order_witness :
    idCspBlock.spp = none ∧
    idCspBlock.forward 0 = idCspBlock.c3.forward (idCspBlock.conv.forward 0) :=
  ⟨rfl, (cspBlock_forward_order idCspBlock 0).2 rfl⟩

/-- Claim C8: `CspBlockConfig::init_with` panics exactly when the config has
a spatial-pyramid-pooling stage but the record has none; with no stage in the
config the record field is ignored and initialization succeeds; with both
present the stage is initialized from the record. -/
theorem cspBlockConfig_init_with_spec {T : Type} (c : CspBlockConfig)
    (r : CspBlockRecord T) :
    (c.init_with r = none ↔ c.spp.isSome ∧ r.spp = none) ∧
    (c.spp = none →
      c.init_with r =
        some ⟨c.conv.init_with r.conv, c.c3.init_with r.c3, none⟩) ∧
    (∀ (d : SppBottleneckConfig) (rs : SppBottleneckRecord T),
      c.spp = some d → r.spp = some rs →
        c.init_with r =
          some ⟨c.conv.init_with r.conv, c.c3.init_with r.c3,
                some (d.init_with rs)⟩) := by
  refine ⟨?_, ?_, ?_⟩
  · cases hc : c.spp <;> cases hr : r.spp <;>
      simp [CspBlockConfig.init_with, hc, hr]
  · intro hc
    simp [CspBlockConfig.init_with, hc]
  · intro d rs hc hr
    simp [CspBlockConfig.init_with, hc, hr]

/-- Witness for C8: a config without the stage initializes from a record,
ignoring the record's stage field. -/
theorem cspBlockConfig_init_with_spec_witness :
    (CspBlockConfig.new 1 2 1 false).spp = none ∧
    (CspBlockConfig.new 1 2 1 false).init_with idCspBlockRecord =
      some ⟨(CspBlockConfig.new 1 2 1 false).conv.init_with idCspBlockRecord.conv,
            (CspBlockConfig.new 1 2 1 false).c3.init_with idCspBlockRecord.c3,
            none⟩ :=
  ⟨rfl,
   (cspBlockConfig_init_with_spec (CspBlockConfig.new 1 2 1 false)
     idCspBlockRecord).2.1 rfl⟩

/-- Claim C9: the inner CSP bottleneck of any `CspBlockConfig::new` has
input and output channels both `out_channels`, expansion `0.5`, and shortcut
flag the negation of the spp flag, so the shortcut is on exactly when the
block has no spatial-pyramid-pooling stage. -/
theorem cspBlockConfig_c3_invariant (i o d : ℕ) (s : Bool) :
    (CspBlockConfig.new i o d s).c3.inChannels = o ∧
    (CspBlockConfig.new i o d s).c3.outChannels = o ∧
    (CspBlockConfig.new i o d s).c3.expansion = 0.5 ∧
    (CspBlockConfig.new i o d s).c3.shortcut = !s ∧
    ((CspBlockConfig.new i o d s).c3.shortcut = true ↔
      (CspBlockConfig.new i o d s).spp = none) := by
  refine ⟨rfl, rfl, rfl, rfl, ?_⟩
  cases s <;> simp [CspBlockConfig.new]
